import Mathlib

/-!
Shallow embedding of `src/solar_dashboard.py` (a Dash solar-panel
dashboard).  Real-valued quantities are modelled as rationals, list state
as Lean lists, and each Python callback as a pure Lean function.
-/

namespace SolarDashboard

/-- Embedding of `np.clip(x, lo, hi)`: `min(hi, max(lo, x))`. -/
def clip (x lo hi : ℚ) : ℚ := min hi (max lo x)

/-- Embedding of `simulate_data(irradiance, temp, dust, last_eff=0.18)`
(lines 11-21).  The `last_eff` parameter is declared but never read by the
body, exactly as in the source. -/
def simulate_data (irradiance temp dust last_eff : ℚ) : ℚ × ℚ :=
  let ideal_eff : ℚ := 0.18
  let loss_temp : ℚ := 0.005 * (temp - 25)
  let loss_dust : ℚ := 0.2 * dust
  let actual_eff := ideal_eff * (1 - loss_temp - loss_dust)
  let actual_eff := clip actual_eff 0 ideal_eff
  let panel_area : ℚ := 1.6
  let power_output := irradiance * panel_area * actual_eff / 1000
  (actual_eff * 100, power_output)

/-- The `data-store` payload: the dictionary
`\x7b'time': [...], 'efficiency': [...], 'power': [...]\x7d`. -/
structure SeriesData where
  time : List ℕ
  efficiency : List ℚ
  power : List ℚ
deriving DecidableEq, Repr

/-- Python slice `l[-k:]`.  For `k ≥ 1` it keeps the last `k` elements;
for `k = 0` Python returns the whole list. -/
def sliceLast {α : Type} (k : ℕ) (l : List α) : List α :=
  if k = 0 then l else l.drop (l.length - k)

/-- The append-then-trim step of `update_data` (lines 103-112), with the
hard-coded `max_len = 60` generalised to a parameter as in the spec
contract `append_and_trim(series, tick, eff, power, max_length=60)`. -/
def append_and_trim (data : SeriesData) (t : ℕ) (e p : ℚ) (max_len : ℕ) :
    SeriesData :=
  let time_list := data.time ++ [t]
  let eff_list := data.efficiency ++ [e]
  let power_list := data.power ++ [p]
  if time_list.length > max_len then
    ⟨sliceLast max_len time_list, sliceLast max_len eff_list,
     sliceLast max_len power_list⟩
  else
    ⟨time_list, eff_list, power_list⟩

/-- Embedding of the callback `update_data` (lines 91-114): when the
interval is disabled the store is returned unchanged; otherwise the freshly
simulated pair is appended and the three lists are trimmed to the last 60
entries. -/
def update_data (n_intervals : ℕ) (irradiance temp dust : ℚ)
    (data : SeriesData) (disabled : Bool) : SeriesData :=
  if disabled then data
  else
    let ep := simulate_data irradiance temp dust 0.18
    append_and_trim data n_intervals ep.1 ep.2 60

/-- The warning text computed by `update_graphs` (lines 138-140):
`if eff_list and eff_list[-1] < 14` produce the warning, else empty. -/
def evaluate_alert (eff_list : List ℚ) : String :=
  match eff_list.getLast? with
  | none => ""
  | some e => if e < 14 then "⚠️ Warning: Efficiency dropped below 14%!" else ""

/-- Embedding of the callback `toggle_simulation` (lines 72-80): returns
the new `disabled` flag and button label. -/
def toggle_simulation (n_clicks : ℕ) (disabled : Bool) : Bool × String :=
  if n_clicks = 0 then (true, "Start Simulation")
  else if disabled then (false, "Stop Simulation")
  else (true, "Start Simulation")

/-- The `disabled` flag after `n` button clicks.  The layout (line 60)
creates the interval with `disabled=True`, and the callback fires once with
`n_clicks = 0` at load and once per click thereafter. -/
def sim_state : ℕ → Bool
  | 0 => (toggle_simulation 0 true).1
  | n + 1 => (toggle_simulation (n + 1) (sim_state n)).1

/-- Modelled from the spec: the simulator formula exactly as the claim
words it, `actual_efficiency = clip(0.18*(1 - 0.005*(temperature-25)
- 0.2*dust), 0, 0.18)`, returning
`(actual_efficiency*100, irradiance*1.6*actual_efficiency/1000)`.  Used
only to compare the source-derived `simulate_data` against the spec. -/
def simulate_spec (irradiance temperature dust : ℚ) : ℚ × ℚ :=
  let actual_efficiency :=
    clip (0.18 * (1 - 0.005 * (temperature - 25) - 0.2 * dust)) 0 0.18
  (actual_efficiency * 100, irradiance * 1.6 * actual_efficiency / 1000)

/-- Correct single-step behaviour of `append_and_trim`: all three lists
keep exactly the most recent `max_len` appended entries (all entries when
fewer), lengths stay equal and bounded by `max_len`. -/
def trimmedCorrectly (data : SeriesData) (t : ℕ) (e p : ℚ) (max_len : ℕ) :
    Prop :=
  (append_and_trim data t e p max_len).time =
    (data.time ++ [t]).drop (data.time.length + 1 - max_len) ∧
  (append_and_trim data t e p max_len).efficiency =
    (data.efficiency ++ [e]).drop (data.time.length + 1 - max_len) ∧
  (append_and_trim data t e p max_len).power =
    (data.power ++ [p]).drop (data.time.length + 1 - max_len) ∧
  (append_and_trim data t e p max_len).time.length ≤ max_len ∧
  (append_and_trim data t e p max_len).efficiency.length =
    (append_and_trim data t e p max_len).time.length ∧
  (append_and_trim data t e p max_len).power.length =
    (append_and_trim data t e p max_len).time.length

/-- Result of feeding ticks 1..65 into an empty series with bound 60. -/
def scenario65 : SeriesData :=
  (List.range 65).foldl (fun s i => append_and_trim s (i + 1) 0 0 60)
    ⟨[], [], []⟩

/- ## Helper lemmas -/

lemma clip_bounds (x : ℚ) : 0 ≤ clip x 0 0.18 ∧ clip x 0 0.18 ≤ 0.18 := by
  unfold clip
  refine ⟨le_min (by norm_num) (le_max_left 0 x), min_le_left _ _⟩

lemma power_nonneg (irradiance temp dust last_eff : ℚ)
    (h : 0 ≤ irradiance) :
    0 ≤ (simulate_data irradiance temp dust last_eff).2 := by
  unfold simulate_data
  have hc := (clip_bounds (0.18 * (1 - 0.005 * (temp - 25) - 0.2 * dust))).1
  exact div_nonneg (mul_nonneg (mul_nonneg h (by norm_num)) hc) (by norm_num)

/- ## Claim theorems -/

/-- C1: for every irradiance, temperature and dust (and any `last_eff`),
`simulate_data` returns exactly the pair the spec formula describes, and in
particular at temperature 25 and dust 0 it returns efficiency 18.0 and
power `irradiance * 1.6 * 0.18 / 1000`. -/
theorem simulate_data_matches_spec (irradiance temp dust last_eff : ℚ) :
    simulate_data irradiance temp dust last_eff =
      simulate_spec irradiance temp dust ∧
    simulate_data irradiance 25 0 last_eff =
      (18, irradiance * 1.6 * 0.18 / 1000) := by
  constructor
  · rfl
  · norm_num [simulate_data, clip]

/-- C2: for every input, including out-of-domain temperature and dust, the
returned efficiency percentage lies in [0, 18]. -/
theorem efficiency_percent_in_range (irradiance temp dust last_eff : ℚ) :
    0 ≤ (simulate_data irradiance temp dust last_eff).1 ∧
    (simulate_data irradiance temp dust last_eff).1 ≤ 18 := by
  have hc := clip_bounds (0.18 * (1 - 0.005 * (temp - 25) - 0.2 * dust))
  simp only [simulate_data]
  constructor
  · nlinarith [hc.1]
  · nlinarith [hc.2]

/-- C6: power is non-negative for non-negative irradiance, and with
temperature and dust held fixed (hence efficiency fixed) power is
monotonically non-decreasing in irradiance. -/
theorem power_nonneg_and_monotone :
    (∀ irradiance temp dust last_eff : ℚ, 0 ≤ irradiance →
      0 ≤ (simulate_data irradiance temp dust last_eff).2) ∧
    (∀ irr1 irr2 temp dust last_eff : ℚ, irr1 ≤ irr2 →
      (simulate_data irr1 temp dust last_eff).2 ≤
        (simulate_data irr2 temp dust last_eff).2) := by
  constructor
  · exact fun irradiance temp dust last_eff h =>
      power_nonneg irradiance temp dust last_eff h
  · intro irr1 irr2 temp dust last_eff h
    have hc := (clip_bounds (0.18 * (1 - 0.005 * (temp - 25) - 0.2 * dust))).1
    simp only [simulate_data]
    gcongr

/-- Witness for C6 at concrete inputs. -/
theorem power_nonneg_and_monotone_witness :
    ((0 : ℚ) ≤ 800 ∧ 0 ≤ (simulate_data 800 25 0.1 0.18).2) ∧
    ((500 : ℚ) ≤ 800 ∧
      (simulate_data 500 30 0 0.18).2 ≤ (simulate_data 800 30 0 0.18).2) :=
  ⟨⟨by norm_num, power_nonneg_and_monotone.1 800 25 0.1 0.18 (by norm_num)⟩,
   ⟨by norm_num, power_nonneg_and_monotone.2 500 800 30 0 0.18 (by norm_num)⟩⟩

/-- C7 counterexample: at irradiance −100 (temperature 25, dust 0) the
returned power is strictly negative, so power_kW is *not* non-negative
unconditionally. -/
theorem power_negative_for_negative_irradiance :
    (simulate_data (-100) 25 0 0.18).2 < 0 := by
  norm_num [simulate_data, clip]

/-- C7 amended: power_kW is non-negative whenever irradiance ≥ 0; negative
irradiance flows through the arithmetic and yields negative power. -/
theorem power_nonneg_of_nonneg_irradiance
    (irradiance temp dust last_eff : ℚ) (h : 0 ≤ irradiance) :
    0 ≤ (simulate_data irradiance temp dust last_eff).2 :=
  power_nonneg irradiance temp dust last_eff h

/-- Witness for the amended C7 at irradiance 400. -/
theorem power_nonneg_of_nonneg_irradiance_witness :
    (0 : ℚ) ≤ 400 ∧ 0 ≤ (simulate_data 400 40 0.3 0.18).2 :=
  ⟨by norm_num,
   power_nonneg_of_nonneg_irradiance 400 40 0.3 0.18 (by norm_num)⟩

/-- C8: `simulate_data 800 25 0.1` returns exactly (17.64, 0.225792). -/
theorem simulate_data_scenario1 :
    simulate_data 800 25 0.1 0.18 = (17.64, 0.225792) := by
  norm_num [simulate_data, clip]

/-- C10: the output of `simulate_data` does not depend on `last_eff`. -/
theorem simulate_data_ignores_last_eff
    (irradiance temp dust l1 l2 : ℚ) :
    simulate_data irradiance temp dust l1 =
      simulate_data irradiance temp dust l2 := rfl

/-- C5: a tick arriving while the interval is disabled (state STOPPED)
leaves the stored series completely unchanged. -/
theorem update_data_frozen_when_disabled
    (n_intervals : ℕ) (irradiance temp dust : ℚ) (data : SeriesData) :
    update_data n_intervals irradiance temp dust data true = data := rfl

/-- C9: the run/stop toggle is a two-state machine over the Boolean
`disabled` flag: with zero clicks it is STOPPED (`disabled = true`), and
every click flips the state, so the state after `n` clicks is STOPPED
exactly when `n` is even. -/
theorem toggle_two_state_machine :
    sim_state 0 = true ∧
    (∀ n, sim_state (n + 1) = !sim_state n) ∧
    (∀ n, sim_state n = decide (n % 2 = 0)) := by
  have hstep : ∀ n, sim_state (n + 1) = !sim_state n := by
    intro n
    cases h : sim_state n <;>
      simp [sim_state, toggle_simulation, h]
  refine ⟨rfl, hstep, ?_⟩
  intro n
  induction n with
  | zero => rfl
  | succ m ih =>
    rw [hstep, ih]
    rcases Nat.mod_two_eq_zero_or_one m with hm | hm
    · have hm1 : (m + 1) % 2 = 1 := by omega
      simp [hm, hm1]
    · have hm1 : (m + 1) % 2 = 0 := by omega
      simp [hm, hm1]

/-- C4: `evaluate_alert` produces a non-empty warning iff the efficiency
series is non-empty and its last value is strictly below 14; the empty
series yields the empty alert. -/
theorem evaluate_alert_iff :
    evaluate_alert [] = "" ∧
    ∀ eff_list : List ℚ,
      evaluate_alert eff_list ≠ "" ↔
        ∃ e, eff_list.getLast? = some e ∧ e < 14 := by
  refine ⟨rfl, fun eff_list => ?_⟩
  cases h : eff_list.getLast? with
  | none => simp [evaluate_alert, h]
  | some e =>
    by_cases he : e < 14
    · simp only [evaluate_alert, h, if_pos he]
      constructor
      · exact fun _ => ⟨e, rfl, he⟩
      · intro _
        decide
    · simp only [evaluate_alert, h, if_neg he]
      constructor
      · intro hc
        exact absurd rfl hc
      · rintro ⟨f, hf, hlt⟩
        cases hf
        exact absurd hlt he

set_option maxRecDepth 4000 in
/-- C3: one `append_and_trim` step on an equal-length series (with any
positive bound, the code using 60) keeps the three lists equal-length,
bounded by `max_len`, and retaining exactly the most recently appended
`max_len` entries in order; and feeding ticks 1..65 into an empty series
with bound 60 leaves exactly ticks 6..65. -/
theorem append_and_trim_ok :
    (∀ (data : SeriesData) (t : ℕ) (e p : ℚ) (max_len : ℕ),
        1 ≤ max_len →
        data.efficiency.length = data.time.length →
        data.power.length = data.time.length →
        trimmedCorrectly data t e p max_len) ∧
    scenario65.time = (List.range 60).map (fun i => i + 6) ∧
    scenario65.efficiency.length = 60 ∧ scenario65.power.length = 60 := by
  refine ⟨?_, by decide, by decide, by decide⟩
  intro data t e p max_len hk he hp
  have hk0 : max_len ≠ 0 := by omega
  have hte : (data.time ++ [t]).length = data.time.length + 1 := by simp
  have hee : (data.efficiency ++ [e]).length = data.time.length + 1 := by
    simp [he]
  have hpe : (data.power ++ [p]).length = data.time.length + 1 := by
    simp [hp]
  simp only [trimmedCorrectly, append_and_trim, sliceLast, if_neg hk0]
  by_cases hgt : (data.time ++ [t]).length > max_len
  · simp only [if_pos hgt]
    refine ⟨?_, ?_, ?_, ?_, ?_, ?_⟩
    · rw [hte]
    · rw [hee]
    · rw [hpe]
    · rw [List.length_drop, hte]
      omega
    · rw [List.length_drop, List.length_drop, hee, hte]
    · rw [List.length_drop, List.length_drop, hpe, hte]
  · simp only [if_neg hgt]
    have hz : data.time.length + 1 - max_len = 0 := by omega
    refine ⟨?_, ?_, ?_, ?_, ?_, ?_⟩
    · rw [hz, List.drop_zero]
    · rw [hz, List.drop_zero]
    · rw [hz, List.drop_zero]
    · omega
    · omega
    · omega

/-- Witness for C3: a concrete instantiation of the single-step part. -/
theorem append_and_trim_ok_witness :
    1 ≤ 60 ∧ trimmedCorrectly ⟨[1], [10], [5]⟩ 2 (11 : ℚ) (6 : ℚ) 60 :=
  ⟨by decide,
   append_and_trim_ok.1 ⟨[1], [10], [5]⟩ 2 11 6 60 (by decide) (by decide)
     (by decide)⟩

end SolarDashboard
